import Mathlib

/-!
Verification development for the Belgium War Era Discord verification bot
(`bot.py`).  The bot's ticket workflow is embedded shallowly: Python strings
become `List Char`, the JSON config file becomes a record (and, for the
merge logic of `load_config`, an association-list document), and the
side-effecting command handlers (`create_verification_channel`, `approve`,
`deny`) become pure functions from an explicit environment (guild state,
configuration, channel, actor) to an outcome plus a record of the effects
they would perform.
-/

namespace Bot

/-- Python strings are modelled as lists of characters. -/
abbrev Str := List Char

/-- Characters of a Lean string literal, used to embed Python string literals. -/
def chars (s : String) : Str := s.data

/-- `startsWithL p l` is true when `p` is an initial run of `l`; embeds
Python `str.startswith`. -/
def startsWithL : Str → Str → Bool
  | [], _ => true
  | _ :: _, [] => false
  | p :: ps, c :: cs => p = c && startsWithL ps cs

/-- `containsSub n h` is true when `n` occurs contiguously inside `h`;
embeds Python's `n in h` substring test. -/
def containsSub (n : Str) : Str → Bool
  | [] => n.isEmpty
  | c :: t => startsWithL n (c :: t) || containsSub n t

/-- Splitting on a single separator character; embeds Python
`str.split(sep)` for a one-character `sep` (e.g. `"|"` and `":"`). -/
def splitOnChar (c : Char) : Str → List Str
  | [] => [[]]
  | x :: xs =>
    if x = c then [] :: splitOnChar c xs
    else
      match splitOnChar c xs with
      | [] => [[x]]
      | p :: ps => (x :: p) :: ps

/-- Python `parts[0]` on the (always nonempty) result of `str.split`. -/
def headSeg (l : List Str) : Str := l.headD []

/-- Python `parts[-1]` on the (always nonempty) result of `str.split`. -/
def lastSeg (l : List Str) : Str := l.getLastD []

/-- Python `str.strip()`: drop whitespace from both ends. -/
def stripL (l : Str) : Str :=
  ((l.dropWhile Char.isWhitespace).reverse.dropWhile Char.isWhitespace).reverse

/-- Decimal digit character for a value below ten. -/
def digitChar (d : Nat) : Char := Char.ofNat (48 + d)

/-- Numeric value of a decimal digit character. -/
def digitVal (c : Char) : Nat := c.toNat - 48

/-- Value of a big-endian list of decimal digit characters. -/
def digitsToNat (l : Str) : Nat := l.foldl (fun a c => a * 10 + digitVal c) 0

/-- Fuel-driven decimal printer (most significant digit first). -/
def natToDigitsAux : Nat → Nat → Str
  | 0, _ => []
  | f + 1, n =>
    if n = 0 then []
    else natToDigitsAux f (n / 10) ++ [digitChar (n % 10)]

/-- Decimal representation of a natural number; embeds Python `str(int)` /
f-string interpolation of a nonnegative integer. -/
def natToDigits (n : Nat) : Str :=
  if n = 0 then ['0'] else natToDigitsAux n n

/-- Python `int(s)` restricted to the shapes that occur here: an optional
sign followed by decimal digits (surrounding whitespace has already been
stripped); anything else raises `ValueError`, modelled as `none`. -/
def parsePyInt (l : Str) : Option Int :=
  if l ≠ [] ∧ l.all Char.isDigit then some (Int.ofNat (digitsToNat l))
  else
    match l with
    | '-' :: rest =>
      if rest ≠ [] ∧ rest.all Char.isDigit then some (-(Int.ofNat (digitsToNat rest)))
      else none
    | '+' :: rest =>
      if rest ≠ [] ∧ rest.all Char.isDigit then some (Int.ofNat (digitsToNat rest))
      else none
    | _ => none

/-- The three verification request types offered by the welcome buttons
(`bot.py` lines 107-135). -/
inductive ReqType where
  | citizen
  | foreigner
  | embassy
deriving DecidableEq

/-- The lowercase wire name of a request type, as interpolated into channel
names and topics by `create_verification_channel`. -/
def typeChars : ReqType → Str
  | .citizen => chars "citizen"
  | .foreigner => chars "foreigner"
  | .embassy => chars "embassy"

/-- The `roles` block of `DEFAULT_CONFIG` / `config.json` (`bot.py` lines
38-46): each key holds an optional role id. -/
structure RolesCfg where
  belgian : Option Nat
  foreigner : Option Nat
  border_control : Option Nat
  minister_foreign_affairs : Option Nat
  president : Option Nat
  vice_president : Option Nat
  government : Option Nat
deriving DecidableEq

/-- The typed view of the configuration consulted by the ticket workflow
(`DEFAULT_CONFIG`, `bot.py` lines 34-51). -/
structure Config where
  welcome_channel_id : Option Nat
  verification_category_id : Option Nat
  log_channel_id : Option Nat
  roles : RolesCfg
  welcome_message : Str
  ticket_counter : Nat
deriving DecidableEq

/-- Python truthiness of an optional integer id (`if config[...]:`):
`None` and `0` are falsy. -/
def truthyId : Option Nat → Bool
  | none => false
  | some i => i != 0

/-- The guild-side environment the handlers interact with: which role and
channel ids resolve (`guild.get_role` / `guild.get_channel`), which user
ids are current members (`guild.get_member`), and which platform calls the
API rejects (`discord.Forbidden` / `discord.HTTPException`). -/
structure Guild where
  roleExists : Nat → Bool
  memberExists : Int → Bool
  addRoleFails : Int → Nat → Bool
  channelExists : Nat → Bool
  logSendFails : Bool
  botCanManageCategory : Bool
  createChannelForbidden : Bool

/-- A text channel as seen by `approve`/`deny`: its name and topic. -/
structure Channel where
  name : Str
  topic : Str
deriving DecidableEq

/-- The member invoking a moderation command: their role ids and whether
they hold administrator privilege. -/
structure Actor where
  roleIds : List Nat
  isAdmin : Bool
deriving DecidableEq

/-- `guild.get_role` applied to an optional configured id. -/
def getRole (g : Guild) (rid : Option Nat) : Option Nat :=
  match rid with
  | none => none
  | some r => if g.roleExists r then some r else none

/-- Replacing spaces by hyphens, `str.replace(" ", "-")` character-wise. -/
def replaceSpace (c : Char) : Char := if c = ' ' then '-' else c

/-- Channel-name sanitisation, `bot.py` line 189:
`channel_name.lower().replace(" ", "-")[:100]`. -/
def sanitizeName (l : Str) : Str :=
  ((l.map Char.toLower).map replaceSpace).take 100

/-- The raw per-branch channel name f-strings of
`create_verification_channel` (`bot.py` lines 167-186):
`f"citizen-{ticket_id}-{user.name}"` and its siblings. -/
def channelNameFor (t : ReqType) (tid : Nat) (uname : Str) : Str :=
  match t with
  | .citizen => chars "citizen-" ++ natToDigits tid ++ chars "-" ++ uname
  | .foreigner => chars "foreigner-" ++ natToDigits tid ++ chars "-" ++ uname
  | .embassy => chars "embassy-" ++ natToDigits tid ++ chars "-" ++ uname

/-- The sanitised ticket channel name actually used at creation. -/
def createChannelName (t : ReqType) (tid : Nat) (uname : Str) : Str :=
  sanitizeName (channelNameFor t tid uname)

/-- The metadata topic written at creation (`bot.py` line 243):
`f"Verification request by {user.name} | Type: {request_type} | ID: {ticket_id} | User ID: {user.id}"`. -/
def createTopic (uname : Str) (t : ReqType) (tid : Nat) (userId : Nat) : Str :=
  chars "Verification request by " ++ uname ++ chars " | Type: " ++ typeChars t ++
    chars " | ID: " ++ natToDigits tid ++ chars " | User ID: " ++ natToDigits userId

/-- Ticket-channel recognition shared by `approve` and `deny` (`bot.py`
lines 599, 759): `channel.name.startswith(("citizen-", "foreigner-", "embassy-"))`. -/
def isTicketName (name : Str) : Bool :=
  startsWithL (chars "citizen-") name || startsWithL (chars "foreigner-") name ||
    startsWithL (chars "embassy-") name

/-- The request type string recovered from a ticket channel name
(`bot.py` lines 650, 795): `channel.name.split("-")[0]`. -/
def requestTypeOf (name : Str) : Str := headSeg (splitOnChar '-' name)

/-- The requester-id extraction loop of `approve`/`deny` (`bot.py` lines
625-632, 785-792): split the topic on `|`, and for every segment containing
`User ID:` try `int(part.split(":")[-1].strip())`, keeping the last
successful parse (a failed parse leaves the previous value in place). -/
def extractUserId (topic : Str) : Option Int :=
  (splitOnChar '|' topic).foldl
    (fun acc part =>
      if containsSub (chars "User ID:") part then
        match parsePyInt (stripL (lastSeg (splitOnChar ':' part))) with
        | some n => some n
        | none => acc
      else acc)
    none

/-- The ticket resolution performed at the head of `approve` (`bot.py`
lines 599-650): the channel must carry a ticket name, the topic must yield
a truthy user id (`if not user_id:` rejects both a missing parse and `0`),
and the request type is the first hyphen-separated segment of the name. -/
def resolveTicket (ch : Channel) : Option (Str × Int) :=
  if !(isTicketName ch.name) then none
  else
    match extractUserId ch.topic with
    | none => none
    | some uid => if uid = 0 then none else some (requestTypeOf ch.name, uid)

/-- The moderator role ids consulted by the authorization check of both
`approve` and `deny` (`bot.py` lines 607-612 and 767-772).  The source
builds this same list whatever the ticket's request type is; the `t`
argument records which ticket type the check is being run for, so that
per-type statements can be made about it. -/
def modRolesFor (cfg : Config) (_t : ReqType) : List (Option Nat) :=
  [cfg.roles.border_control, cfg.roles.minister_foreign_affairs,
    cfg.roles.president, cfg.roles.vice_president]

/-- The moderator role list as used inline by `approve`/`deny`. -/
def modRolesList (cfg : Config) : List (Option Nat) :=
  [cfg.roles.border_control, cfg.roles.minister_foreign_affairs,
    cfg.roles.president, cfg.roles.vice_president]

/-- `has_permission` (`bot.py` lines 614-615):
`any(role_id in user_role_ids for role_id in mod_roles if role_id)` —
unset (`None`) and zero ids are skipped by Python truthiness. -/
def hasModPermission (cfg : Config) (actor : Actor) : Bool :=
  (modRolesList cfg).any fun rid =>
    match rid with
    | some r => r != 0 && actor.roleIds.contains r
    | none => false

/-- The combined authorization condition: a moderator role or administrator
privilege (`bot.py` line 617). -/
def authOk (cfg : Config) (actor : Actor) : Bool :=
  hasModPermission cfg actor || actor.isAdmin

/-- One entry posted to the government log channel: the resolved member (or
`None` for deny's "Unknown"), the request type string, the moderator's
reason, and the granted role shown for approvals. -/
structure LogEntry where
  memberId : Option Int
  requestType : Str
  reason : Str
  roleGranted : Option Nat
deriving DecidableEq

/-- The observable effects of a completed (or aborted) `approve`/`deny`
invocation, beyond the ephemeral error/acknowledgment message itself. -/
structure DecisionEffects where
  rolesGranted : List Nat
  requesterNotified : Bool
  requesterMentioned : Bool
  userEmbedRole : Option Nat
  logEntries : List LogEntry
  modAckSent : Bool
  modAckWarning : Bool
  deletionScheduled : Bool
deriving DecidableEq

/-- The empty effect record: an invocation that aborted before doing
anything beyond its ephemeral error reply. -/
def noEffects : DecisionEffects :=
  { rolesGranted := []
    requesterNotified := false
    requesterMentioned := false
    userEmbedRole := none
    logEntries := []
    modAckSent := false
    modAckWarning := false
    deletionScheduled := false }

/-- How an `approve`/`deny` invocation ends. -/
inductive DecisionOutcome where
  | notTicket
  | unauthorized
  | unresolvableRequester
  | memberNotFound
  | roleGrantError
  | completed
deriving DecidableEq

/-- Outcome plus effects of one moderation command invocation. -/
structure DecisionResult where
  outcome : DecisionOutcome
  effects : DecisionEffects
deriving DecidableEq

/-- The log-channel posting block shared by `approve` (`bot.py` lines
691-718) and `deny` (lines 811-838): only a configured truthy
`log_channel_id` that resolves to a channel is posted to, and a failed send
leaves `log_posted` false.  Returns `(log_posted, entries)`. -/
def postLog (g : Guild) (cfg : Config) (entry : LogEntry) : Bool × List LogEntry :=
  match cfg.log_channel_id with
  | none => (false, [])
  | some cid =>
    if cid != 0 then
      if g.channelExists cid then
        if g.logSendFails then (false, []) else (true, [entry])
      else (false, [])
    else (false, [])

/-- The `/approve` handler (`bot.py` lines 579-739) as a pure function:
ticket-name check, authorization, topic parsing (`if not user_id:`),
member resolution, role selection by name prefix, role grant with
`Forbidden`/`HTTPException` aborting the whole flow, then notification,
logging, moderator acknowledgment (with a warning field only when a
configured log channel could not be posted to) and scheduled deletion. -/
def approve (g : Guild) (cfg : Config) (ch : Channel) (actor : Actor) (reason : Str) :
    DecisionResult :=
  if !(isTicketName ch.name) then ⟨.notTicket, noEffects⟩
  else if !(authOk cfg actor) then ⟨.unauthorized, noEffects⟩
  else
    match extractUserId ch.topic with
    | none => ⟨.unresolvableRequester, noEffects⟩
    | some uid =>
      if uid = 0 then ⟨.unresolvableRequester, noEffects⟩
      else if !(g.memberExists uid) then ⟨.memberNotFound, noEffects⟩
      else
        let rt := requestTypeOf ch.name
        let roleToGive : Option Nat :=
          if rt = chars "citizen" then getRole g cfg.roles.belgian
          else if rt = chars "foreigner" then getRole g cfg.roles.foreigner
          else none
        let grantFailed :=
          match roleToGive with
          | some r => g.addRoleFails uid r
          | none => false
        if grantFailed then ⟨.roleGrantError, noEffects⟩
        else
          let lg := postLog g cfg ⟨some uid, rt, reason, roleToGive⟩
          ⟨.completed,
            { rolesGranted := match roleToGive with | some r => [r] | none => []
              requesterNotified := true
              requesterMentioned := true
              userEmbedRole := roleToGive
              logEntries := lg.2
              modAckSent := true
              modAckWarning := !lg.1 && truthyId cfg.log_channel_id
              deletionScheduled := true }⟩

/-- The `/deny` handler (`bot.py` lines 742-861) as a pure function.  After
the same ticket and authorization checks as `approve`, the requester id is
parsed but a missing/zero id does NOT abort:
`member = interaction.guild.get_member(user_id) if user_id else None`, and
the flow proceeds with an unknown member (no mention, "Unknown" in the
log). -/
def deny (g : Guild) (cfg : Config) (ch : Channel) (actor : Actor) (reason : Str) :
    DecisionResult :=
  if !(isTicketName ch.name) then ⟨.notTicket, noEffects⟩
  else if !(authOk cfg actor) then ⟨.unauthorized, noEffects⟩
  else
    let member : Option Int :=
      match extractUserId ch.topic with
      | some uid => if uid ≠ 0 then (if g.memberExists uid then some uid else none) else none
      | none => none
    let rt := requestTypeOf ch.name
    let lg := postLog g cfg ⟨member, rt, reason, none⟩
    ⟨.completed,
      { rolesGranted := []
        requesterNotified := true
        requesterMentioned := member.isSome
        userEmbedRole := none
        logEntries := lg.2
        modAckSent := true
        modAckWarning := !lg.1 && truthyId cfg.log_channel_id
        deletionScheduled := true }⟩

/-- How a `create_verification_channel` invocation ends. -/
inductive CreateOutcome where
  | categoryPermissionError
  | createForbiddenError
  | created
deriving DecidableEq

/-- Outcome of ticket creation, together with the configuration object that
was persisted by `save_config` and the created channel's name/topic (absent
when no channel was created). -/
structure CreateResult where
  outcome : CreateOutcome
  savedConfig : Config
  channelName : Option Str
  channelTopic : Option Str
deriving DecidableEq

/-- `create_verification_channel` (`bot.py` lines 142-289) as a pure
function.  The counter is incremented and the configuration persisted
(lines 162-164) before the category permission pre-check (lines 226-234)
and before the channel-creation call that may raise `discord.Forbidden`
(lines 237-255). -/
def create_verification_channel (g : Guild) (cfg0 : Config) (uname : Str) (userId : Nat)
    (rt : ReqType) : CreateResult :=
  let cfg := { cfg0 with ticket_counter := cfg0.ticket_counter + 1 }
  let tid := cfg.ticket_counter
  let category : Option Nat :=
    match cfg.verification_category_id with
    | some cid => if cid != 0 then (if g.channelExists cid then some cid else none) else none
    | none => none
  if category.isSome && !g.botCanManageCategory then
    ⟨.categoryPermissionError, cfg, none, none⟩
  else if g.createChannelForbidden then
    ⟨.createForbiddenError, cfg, none, none⟩
  else
    ⟨.created, cfg, some (createChannelName rt tid uname),
      some (createTopic uname rt tid userId)⟩

/-- A JSON-like value, enough to represent `config.json` and
`DEFAULT_CONFIG`: null, numbers, strings and objects with insertion-ordered
fields. -/
inductive JVal where
  | null
  | num (n : Int)
  | str (s : String)
  | obj (fields : List (String × JVal))

/-- First-match lookup in an object's field list, the behaviour of a Python
dict read restricted to the keys present. -/
def lookupJ : List (String × JVal) → String → Option JVal
  | [], _ => none
  | (k, v) :: rest, key => if k = key then some v else lookupJ rest key

/-- Python `key in config`. -/
def hasKeyJ (fields : List (String × JVal)) (k : String) : Bool :=
  (lookupJ fields k).isSome

/-- `DEFAULT_CONFIG` (`bot.py` lines 34-51) as a JSON object. -/
def defaultConfigFields : List (String × JVal) :=
  [("welcome_channel_id", JVal.null),
   ("verification_category_id", JVal.null),
   ("log_channel_id", JVal.null),
   ("roles", JVal.obj
      [("belgian", JVal.null),
       ("foreigner", JVal.null),
       ("border_control", JVal.null),
       ("minister_foreign_affairs", JVal.null),
       ("president", JVal.null),
       ("vice_president", JVal.null),
       ("government", JVal.null)]),
   ("welcome_message", JVal.str
      "# Welcome to the Official Belgium War Era Server!\n\nGreetings, traveler! You have arrived at the gates of Belgium.\n\nPlease select your status below to proceed with verification:"),
   ("ticket_counter", JVal.num 0)]

/-- One iteration of the merge loop of `load_config` (`bot.py` lines
65-67): `if key not in config: config[key] = value`.  A dict insertion on a
missing key appends the binding. -/
def mergeStep (cfg : List (String × JVal)) (kv : String × JVal) : List (String × JVal) :=
  if hasKeyJ cfg kv.1 then cfg else cfg ++ [kv]

/-- The merge loop of `load_config` (`bot.py` lines 64-67):
`for key, value in DEFAULT_CONFIG.items(): if key not in config: config[key] = value`. -/
def mergeDefaults (loaded : List (String × JVal)) : List (String × JVal) :=
  defaultConfigFields.foldl mergeStep loaded

/-- `load_config` (`bot.py` lines 54-69): when the file exists its object is
merged against the defaults top-level key by key; otherwise a copy of the
defaults is returned. -/
def load_config (file : Option (List (String × JVal))) : List (String × JVal) :=
  match file with
  | some loaded => mergeDefaults loaded
  | none => defaultConfigFields

/-- Whether the result of a load has a given role key under its `"roles"`
key, the shape read by `config["roles"][k]`. -/
def rolesHasKey (cfg : List (String × JVal)) (k : String) : Bool :=
  match lookupJ cfg "roles" with
  | some (JVal.obj fs) => hasKeyJ fs k
  | _ => false

/-- The channel-name formula as the spec words it (spec §8, first bullet):
`{type}-{ticketId}-{username}` lowercased, spaces replaced by hyphens,
truncated to 100 characters.  Stated separately from `createChannelName`
(which follows the source's per-branch f-strings) so the two can be
compared. -/
def specChannelName (t : ReqType) (tid : Nat) (uname : Str) : Str :=
  (((typeChars t ++ chars "-" ++ natToDigits tid ++ chars "-" ++ uname).map Char.toLower).map
    replaceSpace).take 100

/-- A concrete guild environment for witnesses: every id resolves, every
member is present, the platform accepts every call. -/
def gdEnv : Guild :=
  { roleExists := fun _ => true
    memberExists := fun _ => true
    addRoleFails := fun _ _ => false
    channelExists := fun _ => true
    logSendFails := false
    botCanManageCategory := true
    createChannelForbidden := false }

/-- A concrete fully-populated configuration for witnesses. -/
def cfgAll : Config :=
  { welcome_channel_id := some 40
    verification_category_id := some 50
    log_channel_id := some 60
    roles :=
      { belgian := some 10
        foreigner := some 11
        border_control := some 3
        minister_foreign_affairs := some 4
        president := some 5
        vice_president := some 6
        government := some 7 }
    welcome_message := []
    ticket_counter := 0 }

/-- A concrete configuration with no log channel for the C8 witness. -/
def cfgNoLog : Config :=
  { cfgAll with log_channel_id := none }

/-! ## String-splitting lemmas -/

theorem splitOnChar_ne_nil (c : Char) (l : Str) : splitOnChar c l ≠ [] := by
  cases l with
  | nil => simp [splitOnChar]
  | cons x xs =>
    simp only [splitOnChar]
    split
    · simp
    · split <;> simp

theorem splitOnChar_append (c : Char) (a b : Str) :
    splitOnChar c (a ++ c :: b) = splitOnChar c a ++ splitOnChar c b := by
  induction a with
  | nil => simp [splitOnChar]
  | cons x a ih =>
    by_cases hx : x = c
    · subst hx
      simp [splitOnChar, ih]
    · simp only [List.cons_append, splitOnChar, if_neg hx, List.append_eq]
      rcases hsa : splitOnChar c a with _ | ⟨p, ps⟩
      · exact absurd hsa (splitOnChar_ne_nil c a)
      · rw [ih, hsa]
        rfl

theorem splitOnChar_eq_single (c : Char) (b : Str) (h : ∀ x ∈ b, x ≠ c) :
    splitOnChar c b = [b] := by
  induction b with
  | nil => rfl
  | cons x xs ih =>
    have hx : x ≠ c := h x (by simp)
    simp only [splitOnChar, if_neg hx]
    rw [ih fun y hy => h y (by simp [hy])]

theorem startsWithL_self_append (p r : Str) : startsWithL p (p ++ r) = true := by
  induction p with
  | nil => rfl
  | cons x xs ih => simp [startsWithL, ih]

theorem containsSub_self_append (n r : Str) : containsSub n (n ++ r) = true := by
  cases n with
  | nil =>
    cases r with
    | nil => rfl
    | cons c t => simp [containsSub, startsWithL]
  | cons x xs =>
    show containsSub (x :: xs) (x :: (xs ++ r)) = true
    simp only [containsSub]
    rw [show x :: (xs ++ r) = (x :: xs) ++ r from rfl, startsWithL_self_append]
    simp

theorem getLastD_ne_nil_default (l : List Str) (h : l ≠ []) (d d' : Str) :
    l.getLastD d = l.getLastD d' := by
  rcases l with _ | ⟨y, ys⟩
  · exact absurd rfl h
  · rw [List.getLastD_cons, List.getLastD_cons]

theorem getLastD_append_ne_nil (l₁ l₂ : List Str) (d d' : Str) (h : l₂ ≠ []) :
    (l₁ ++ l₂).getLastD d = l₂.getLastD d' := by
  induction l₁ generalizing d with
  | nil => exact getLastD_ne_nil_default l₂ h d d'
  | cons x l₁ ih =>
    rw [List.cons_append, List.getLastD_cons]
    exact ih x

theorem headSeg_splitOnChar (c : Char) (a b : Str) (ha : ∀ x ∈ a, x ≠ c) :
    headSeg (splitOnChar c (a ++ c :: b)) = a := by
  rw [splitOnChar_append, splitOnChar_eq_single c a ha]
  rfl

theorem lastSeg_splitOnChar (c : Char) (a b : Str) (hb : ∀ x ∈ b, x ≠ c) :
    lastSeg (splitOnChar c (a ++ c :: b)) = b := by
  rw [splitOnChar_append, splitOnChar_eq_single c b hb]
  exact getLastD_append_ne_nil _ _ _ [] (by simp)

/-! ## Decimal digit lemmas -/

theorem digitVal_digitChar (d : Nat) (h : d < 10) : digitVal (digitChar d) = d := by
  interval_cases d <;> decide

theorem digitChar_isDigit (d : Nat) (h : d < 10) : (digitChar d).isDigit = true := by
  interval_cases d <;> decide

theorem isDigit_ne_pipe (c : Char) (h : c.isDigit = true) : c ≠ '|' := by
  intro he
  subst he
  exact absurd h (by decide)

theorem isDigit_ne_colon (c : Char) (h : c.isDigit = true) : c ≠ ':' := by
  intro he
  subst he
  exact absurd h (by decide)

theorem isDigit_not_ws (c : Char) (h : c.isDigit = true) : c.isWhitespace = false := by
  rcases hw : c.isWhitespace with _ | _
  · rfl
  · exfalso
    have hw' : c = ' ' ∨ c = '\t' ∨ c = '\r' ∨ c = '\n' := by
      have := hw
      simp only [Char.isWhitespace, Bool.or_eq_true, decide_eq_true_eq] at this
      tauto
    rcases hw' with h' | h' | h' | h' <;> (subst h'; exact absurd h (by decide))

theorem natToDigitsAux_all_digits (f : Nat) : ∀ n, (natToDigitsAux f n).all Char.isDigit = true := by
  induction f with
  | zero => intro n; rfl
  | succ f ih =>
    intro n
    simp only [natToDigitsAux]
    split
    · rfl
    · rw [List.all_append, ih (n / 10)]
      simp [digitChar_isDigit (n % 10) (Nat.mod_lt n (by omega))]

theorem natToDigits_all_digits (n : Nat) : (natToDigits n).all Char.isDigit = true := by
  unfold natToDigits
  split
  · decide
  · exact natToDigitsAux_all_digits n n

theorem natToDigits_ne_nil (n : Nat) : natToDigits n ≠ [] := by
  unfold natToDigits
  split
  · simp
  · rename_i hn
    rcases n with _ | m
    · exact absurd rfl hn
    · simp [natToDigitsAux, hn]

theorem digitsToNat_append_digit (a : Str) (c : Char) :
    digitsToNat (a ++ [c]) = digitsToNat a * 10 + digitVal c := by
  simp [digitsToNat, List.foldl_append]

theorem digitsToNat_natToDigitsAux (f : Nat) :
    ∀ n, n ≤ f → digitsToNat (natToDigitsAux f n) = n := by
  induction f with
  | zero =>
    intro n hn
    interval_cases n
    rfl
  | succ f ih =>
    intro n hn
    simp only [natToDigitsAux]
    split
    · rename_i h0
      subst h0
      rfl
    · rename_i h0
      rw [digitsToNat_append_digit,
        ih (n / 10) (by
          have := Nat.div_lt_self (Nat.pos_of_ne_zero h0) (by omega : 1 < 10)
          omega),
        digitVal_digitChar (n % 10) (by omega)]
      omega

theorem digitsToNat_natToDigits (n : Nat) : digitsToNat (natToDigits n) = n := by
  unfold natToDigits
  split
  · rename_i h0
    subst h0
    decide
  · exact digitsToNat_natToDigitsAux n n (le_refl n)

theorem parsePyInt_natToDigits (n : Nat) :
    parsePyInt (natToDigits n) = some (Int.ofNat n) := by
  unfold parsePyInt
  rw [if_pos ⟨natToDigits_ne_nil n, natToDigits_all_digits n⟩, digitsToNat_natToDigits]

theorem mem_natToDigits_isDigit (n : Nat) (c : Char) (hc : c ∈ natToDigits n) :
    c.isDigit = true :=
  List.all_eq_true.mp (natToDigits_all_digits n) c hc

/-! ## Ticket encoding lemmas -/

theorem stripL_space_digits (d : Str) (hd : ∀ c ∈ d, c.isDigit = true) (hne : d ≠ []) :
    stripL (' ' :: d) = d := by
  unfold stripL
  rcases d with _ | ⟨x, t⟩
  · exact absurd rfl hne
  · have hx : Char.isWhitespace x = false := isDigit_not_ws x (hd x (by simp))
    rw [List.dropWhile_cons, if_pos (by decide), List.dropWhile_cons, if_neg (by simp [hx])]
    rcases hrev : (x :: t).reverse with _ | ⟨y, s⟩
    · exact absurd hrev (by simp)
    · have hy : y ∈ x :: t := by
        have hmem : y ∈ (x :: t).reverse := by rw [hrev]; simp
        rw [List.mem_reverse] at hmem
        exact hmem
      rw [List.dropWhile_cons, if_neg (by simp [isDigit_not_ws y (hd y hy)])]
      rw [← hrev, List.reverse_reverse]

theorem createTopic_decomp (uname : Str) (t : ReqType) (tid userId : Nat) :
    createTopic uname t tid userId =
      (chars "Verification request by " ++ uname ++ chars " | Type: " ++ typeChars t ++
        chars " | ID: " ++ natToDigits tid ++ chars " ") ++
        '|' :: (chars " User ID: " ++ natToDigits userId) := by
  unfold createTopic
  rw [show chars " | User ID: " = chars " " ++ '|' :: chars " User ID: " from rfl]
  simp [List.append_assoc]

theorem pipe_not_mem_userIdSeg (userId : Nat) :
    ∀ x ∈ chars " User ID: " ++ natToDigits userId, x ≠ '|' := by
  intro x hx
  rcases List.mem_append.mp hx with h | h
  · exact (by decide : ∀ y ∈ chars " User ID: ", y ≠ '|') x h
  · exact isDigit_ne_pipe x (mem_natToDigits_isDigit userId x h)

theorem userIdSeg_colon_decomp (userId : Nat) :
    chars " User ID: " ++ natToDigits userId =
      chars " User ID" ++ ':' :: (' ' :: natToDigits userId) := rfl

theorem extract_step_userIdSeg (acc : Option Int) (userId : Nat) :
    (if containsSub (chars "User ID:") (chars " User ID: " ++ natToDigits userId) then
        match parsePyInt (stripL (lastSeg
            (splitOnChar ':' (chars " User ID: " ++ natToDigits userId)))) with
        | some n => some n
        | none => acc
      else acc) = some (Int.ofNat userId) := by
  have hcont : containsSub (chars "User ID:")
      (chars " User ID: " ++ natToDigits userId) = true := by
    rw [show containsSub (chars "User ID:") (chars " User ID: " ++ natToDigits userId) =
          (startsWithL (chars "User ID:")
              (' ' :: (chars "User ID:" ++ (' ' :: natToDigits userId))) ||
            containsSub (chars "User ID:") (chars "User ID:" ++ (' ' :: natToDigits userId)))
          from rfl,
      containsSub_self_append]
    simp
  rw [if_pos hcont]
  have hcolon : lastSeg (splitOnChar ':' (chars " User ID: " ++ natToDigits userId)) =
      ' ' :: natToDigits userId := by
    rw [userIdSeg_colon_decomp]
    refine lastSeg_splitOnChar ':' _ _ ?_
    intro x hx
    rcases List.mem_cons.mp hx with h | hx'
    · subst h; decide
    · exact isDigit_ne_colon x (mem_natToDigits_isDigit userId x hx')
  rw [hcolon,
    stripL_space_digits _ (fun c hc => mem_natToDigits_isDigit userId c hc)
      (natToDigits_ne_nil userId),
    parsePyInt_natToDigits]

theorem extractUserId_createTopic (uname : Str) (t : ReqType) (tid userId : Nat) :
    extractUserId (createTopic uname t tid userId) = some (Int.ofNat userId) := by
  rw [createTopic_decomp]
  unfold extractUserId
  rw [splitOnChar_append,
    splitOnChar_eq_single '|' _ (pipe_not_mem_userIdSeg userId),
    List.foldl_append]
  simp only [List.foldl_cons, List.foldl_nil]
  exact extract_step_userIdSeg _ userId

theorem sanitize_decomp (pfx X : Str)
    (h1 : pfx.map Char.toLower = pfx) (h2 : pfx.map replaceSpace = pfx)
    (h3 : pfx.length ≤ 100) :
    sanitizeName (pfx ++ X) =
      pfx ++ ((X.map Char.toLower).map replaceSpace).take (100 - pfx.length) := by
  unfold sanitizeName
  rw [List.map_append, h1, List.map_append, h2, List.take_append_eq_append_take,
    List.take_of_length_le h3]

theorem createChannelName_decomp (rt : ReqType) (tid : Nat) (uname : Str) :
    ∃ rest, createChannelName rt tid uname = typeChars rt ++ '-' :: rest := by
  cases rt
  case citizen =>
    refine ⟨(((natToDigits tid ++ (chars "-" ++ uname)).map Char.toLower).map
      replaceSpace).take (100 - (chars "citizen-").length), ?_⟩
    unfold createChannelName channelNameFor
    rw [show chars "citizen-" ++ natToDigits tid ++ chars "-" ++ uname =
          chars "citizen-" ++ (natToDigits tid ++ (chars "-" ++ uname)) by
        simp [List.append_assoc]]
    rw [sanitize_decomp (chars "citizen-") _ (by decide) (by decide) (by decide)]
    rfl
  case foreigner =>
    refine ⟨(((natToDigits tid ++ (chars "-" ++ uname)).map Char.toLower).map
      replaceSpace).take (100 - (chars "foreigner-").length), ?_⟩
    unfold createChannelName channelNameFor
    rw [show chars "foreigner-" ++ natToDigits tid ++ chars "-" ++ uname =
          chars "foreigner-" ++ (natToDigits tid ++ (chars "-" ++ uname)) by
        simp [List.append_assoc]]
    rw [sanitize_decomp (chars "foreigner-") _ (by decide) (by decide) (by decide)]
    rfl
  case embassy =>
    refine ⟨(((natToDigits tid ++ (chars "-" ++ uname)).map Char.toLower).map
      replaceSpace).take (100 - (chars "embassy-").length), ?_⟩
    unfold createChannelName channelNameFor
    rw [show chars "embassy-" ++ natToDigits tid ++ chars "-" ++ uname =
          chars "embassy-" ++ (natToDigits tid ++ (chars "-" ++ uname)) by
        simp [List.append_assoc]]
    rw [sanitize_decomp (chars "embassy-") _ (by decide) (by decide) (by decide)]
    rfl

theorem isTicketName_createChannelName (rt : ReqType) (tid : Nat) (uname : Str) :
    isTicketName (createChannelName rt tid uname) = true := by
  obtain ⟨rest, h⟩ := createChannelName_decomp rt tid uname
  rw [h]
  cases rt
  case citizen =>
    rw [show typeChars ReqType.citizen ++ '-' :: rest = chars "citizen-" ++ rest from rfl]
    unfold isTicketName
    rw [startsWithL_self_append]
    simp
  case foreigner =>
    rw [show typeChars ReqType.foreigner ++ '-' :: rest = chars "foreigner-" ++ rest from rfl]
    unfold isTicketName
    rw [startsWithL_self_append]
    simp
  case embassy =>
    rw [show typeChars ReqType.embassy ++ '-' :: rest = chars "embassy-" ++ rest from rfl]
    unfold isTicketName
    rw [startsWithL_self_append]
    simp

theorem requestTypeOf_createChannelName (rt : ReqType) (tid : Nat) (uname : Str) :
    requestTypeOf (createChannelName rt tid uname) = typeChars rt := by
  obtain ⟨rest, h⟩ := createChannelName_decomp rt tid uname
  rw [h]
  refine headSeg_splitOnChar '-' _ rest ?_
  cases rt <;> decide

/-! ## Claim theorems -/

/-- Claim C1: for every requester (nonzero Discord user id), request type and
ticket id, resolving a channel whose name and topic were produced by ticket
creation recovers exactly the request type (from the name prefix) and the
requester user id (from the topic). -/
theorem c1_ticket_round_trip (rt : ReqType) (uname : Str) (tid userId : Nat)
    (h : userId ≠ 0) :
    resolveTicket ⟨createChannelName rt tid uname, createTopic uname rt tid userId⟩ =
      some (typeChars rt, Int.ofNat userId) := by
  unfold resolveTicket
  simp only [isTicketName_createChannelName, extractUserId_createTopic,
    requestTypeOf_createChannelName, Bool.not_true, Bool.false_eq_true, if_false]
  rw [if_neg (by simpa using h)]

/-- Witness for C1 at a concrete requester whose name contains a space, an
uppercase letter and a hyphen. -/
theorem c1_ticket_round_trip_witness :
    (42 : Nat) ≠ 0 ∧
      resolveTicket ⟨createChannelName ReqType.citizen 7 (chars "Alice-B c"),
          createTopic (chars "Alice-B c") ReqType.citizen 7 42⟩ =
        some (typeChars ReqType.citizen, Int.ofNat 42) :=
  ⟨by decide, c1_ticket_round_trip ReqType.citizen (chars "Alice-B c") 7 42 (by decide)⟩

/-- Claim C6: for every request type, username and ticket id, the generated
channel name equals the type-id-username pattern lowercased with spaces
replaced by hyphens, truncated to 100 characters. -/
theorem c6_channel_name_format (t : ReqType) (tid : Nat) (uname : Str) :
    createChannelName t tid uname = specChannelName t tid uname := by
  cases t <;>
    (unfold createChannelName channelNameFor specChannelName sanitizeName typeChars
     simp only [List.append_assoc]
     rfl)

/-- Claim C2: inside a ticket channel, an actor holding none of the
configured moderator roles and lacking administrator privilege is rejected
by both `approve` and `deny` with no effect, regardless of the reason. -/
theorem c2_unauthorized_rejected (g : Guild) (cfg : Config) (ch : Channel) (actor : Actor)
    (reason : Str) (ht : isTicketName ch.name = true)
    (hnone : (modRolesList cfg).all
      (fun rid => match rid with
        | some r => !(actor.roleIds.contains r)
        | none => true) = true)
    (hadmin : actor.isAdmin = false) :
    approve g cfg ch actor reason = ⟨.unauthorized, noEffects⟩ ∧
      deny g cfg ch actor reason = ⟨.unauthorized, noEffects⟩ := by
  have hperm : hasModPermission cfg actor = false := by
    unfold hasModPermission
    rw [List.any_eq_false]
    intro rid hrid
    have hthis := List.all_eq_true.mp hnone rid hrid
    rcases rid with _ | r
    · simp only [Bool.not_eq_true]
    · simp only [Bool.not_eq_true'] at hthis
      simp only [Bool.not_eq_true]
      rw [hthis, Bool.and_false]
  have hauth : authOk cfg actor = false := by
    unfold authOk
    rw [hperm, hadmin]
    rfl
  exact ⟨by simp [approve, ht, hauth], by simp [deny, ht, hauth]⟩

/-- Witness for C2: a concrete actor holding only an unrelated role. -/
theorem c2_unauthorized_rejected_witness :
    approve gdEnv cfgAll ⟨chars "citizen-1-bob", []⟩ ⟨[99], false⟩ [] =
        ⟨.unauthorized, noEffects⟩ ∧
      deny gdEnv cfgAll ⟨chars "citizen-1-bob", []⟩ ⟨[99], false⟩ [] =
        ⟨.unauthorized, noEffects⟩ :=
  c2_unauthorized_rejected gdEnv cfgAll ⟨chars "citizen-1-bob", []⟩ ⟨[99], false⟩ []
    (by decide) (by decide) (by decide)

/-- Counterexample to claim C3: `deny` in a ticket channel with an empty
topic (no parsable User ID) does NOT abort — it posts the requester
notification, writes a log entry and schedules the deletion. -/
theorem c3_deny_proceeds_counterexample :
    (deny gdEnv cfgAll ⟨chars "citizen-1-bob", []⟩ ⟨[3], false⟩ []).outcome =
        DecisionOutcome.completed ∧
      (deny gdEnv cfgAll ⟨chars "citizen-1-bob", []⟩ ⟨[3], false⟩
          []).effects.requesterNotified = true ∧
      (deny gdEnv cfgAll ⟨chars "citizen-1-bob", []⟩ ⟨[3], false⟩
          []).effects.deletionScheduled = true ∧
      (deny gdEnv cfgAll ⟨chars "citizen-1-bob", []⟩ ⟨[3], false⟩
          []).effects.logEntries ≠ [] := by
  decide

/-- Claim C3 as amended: when the ticket topic yields no parsable User ID,
`approve` aborts with the unresolvable-requester error and no effects, while
`deny` proceeds to completion with an unknown requester: the notification is
posted without a member mention, the log entry carries no member, and the
deletion is scheduled. -/
theorem c3_unresolvable_requester (g : Guild) (cfg : Config) (ch : Channel) (actor : Actor)
    (reason : Str) (ht : isTicketName ch.name = true) (ha : authOk cfg actor = true)
    (hu : extractUserId ch.topic = none) :
    approve g cfg ch actor reason = ⟨.unresolvableRequester, noEffects⟩ ∧
      (deny g cfg ch actor reason).outcome = .completed ∧
      (deny g cfg ch actor reason).effects.requesterNotified = true ∧
      (deny g cfg ch actor reason).effects.requesterMentioned = false ∧
      (deny g cfg ch actor reason).effects.deletionScheduled = true ∧
      (deny g cfg ch actor reason).effects.logEntries =
        (postLog g cfg ⟨none, requestTypeOf ch.name, reason, none⟩).2 := by
  refine ⟨?_, ?_⟩
  · simp [approve, ht, ha, hu]
  · simp [deny, ht, ha, hu]

/-- Witness for the amended C3 at a concrete empty-topic ticket channel. -/
theorem c3_unresolvable_requester_witness :
    approve gdEnv cfgAll ⟨chars "foreigner-2-ann", []⟩ ⟨[4], false⟩ [] =
        ⟨.unresolvableRequester, noEffects⟩ ∧
      (deny gdEnv cfgAll ⟨chars "foreigner-2-ann", []⟩ ⟨[4], false⟩ []).outcome =
        .completed ∧
      (deny gdEnv cfgAll ⟨chars "foreigner-2-ann", []⟩ ⟨[4], false⟩
          []).effects.requesterNotified = true ∧
      (deny gdEnv cfgAll ⟨chars "foreigner-2-ann", []⟩ ⟨[4], false⟩
          []).effects.requesterMentioned = false ∧
      (deny gdEnv cfgAll ⟨chars "foreigner-2-ann", []⟩ ⟨[4], false⟩
          []).effects.deletionScheduled = true ∧
      (deny gdEnv cfgAll ⟨chars "foreigner-2-ann", []⟩ ⟨[4], false⟩
          []).effects.logEntries =
        (postLog gdEnv cfgAll ⟨none, requestTypeOf (chars "foreigner-2-ann"), [], none⟩).2 :=
  c3_unresolvable_requester gdEnv cfgAll ⟨chars "foreigner-2-ann", []⟩ ⟨[4], false⟩ []
    (by decide) (by decide) (by decide)

/-- Claim C4: on a citizen ticket with the belgian role configured and
resolvable, a current member, and a working log channel, approve grants
exactly the belgian role and shows it in both the requester notification
embed and the log entry; on an embassy ticket approve grants no role at
all. -/
theorem c4_citizen_grants_belgian (g : Guild) (cfg : Config) (uname : Str)
    (tid userId br lc : Nat) (actor : Actor) (reason : Str)
    (h0 : userId ≠ 0)
    (ha : authOk cfg actor = true)
    (hm : g.memberExists (userId : Int) = true)
    (hb : cfg.roles.belgian = some br)
    (hr : g.roleExists br = true)
    (hg : g.addRoleFails (userId : Int) br = false)
    (hl : cfg.log_channel_id = some lc)
    (hlc : lc ≠ 0)
    (hle : g.channelExists lc = true)
    (hls : g.logSendFails = false) :
    approve g cfg ⟨createChannelName ReqType.citizen tid uname,
        createTopic uname ReqType.citizen tid userId⟩ actor reason =
      ⟨.completed,
        { rolesGranted := [br]
          requesterNotified := true
          requesterMentioned := true
          userEmbedRole := some br
          logEntries := [⟨some (userId : Int), chars "citizen", reason, some br⟩]
          modAckSent := true
          modAckWarning := false
          deletionScheduled := true }⟩ ∧
      approve g cfg ⟨createChannelName ReqType.embassy tid uname,
          createTopic uname ReqType.embassy tid userId⟩ actor reason =
        ⟨.completed,
          { rolesGranted := []
            requesterNotified := true
            requesterMentioned := true
            userEmbedRole := none
            logEntries := [⟨some (userId : Int), chars "embassy", reason, none⟩]
            modAckSent := true
            modAckWarning := false
            deletionScheduled := true }⟩ := by
  have hez : chars "embassy" ≠ chars "citizen" := by decide
  have hez' : chars "embassy" ≠ chars "foreigner" := by decide
  constructor
  · simp [approve, isTicketName_createChannelName, extractUserId_createTopic,
      requestTypeOf_createChannelName, typeChars, h0, ha, hm, hb, hr, hg, hl, hlc, hle, hls,
      getRole, postLog, truthyId]
  · simp [approve, isTicketName_createChannelName, extractUserId_createTopic,
      requestTypeOf_createChannelName, typeChars, hez, hez', h0, ha, hm, hl, hlc, hle, hls,
      postLog, truthyId]

/-- Witness for C4 at a concrete fully-configured environment. -/
theorem c4_citizen_grants_belgian_witness :
    approve gdEnv cfgAll ⟨createChannelName ReqType.citizen 1 (chars "bob"),
        createTopic (chars "bob") ReqType.citizen 1 42⟩ ⟨[3], false⟩ [] =
      ⟨.completed,
        { rolesGranted := [10]
          requesterNotified := true
          requesterMentioned := true
          userEmbedRole := some 10
          logEntries := [⟨some ((42 : Nat) : Int), chars "citizen", [], some 10⟩]
          modAckSent := true
          modAckWarning := false
          deletionScheduled := true }⟩ ∧
      approve gdEnv cfgAll ⟨createChannelName ReqType.embassy 1 (chars "bob"),
          createTopic (chars "bob") ReqType.embassy 1 42⟩ ⟨[3], false⟩ [] =
        ⟨.completed,
          { rolesGranted := []
            requesterNotified := true
            requesterMentioned := true
            userEmbedRole := none
            logEntries := [⟨some ((42 : Nat) : Int), chars "embassy", [], none⟩]
            modAckSent := true
            modAckWarning := false
            deletionScheduled := true }⟩ :=
  c4_citizen_grants_belgian gdEnv cfgAll (chars "bob") 1 42 10 60 ⟨[3], false⟩ []
    (by decide) (by decide) (by decide) (by decide) (by decide) (by decide) (by decide)
    (by decide) (by decide) (by decide)

/-- Claim C5: if the platform rejects the role grant during approve, the
approval aborts with the role-grant error before any further effect: no
requester notification, no log entry, no scheduled deletion. -/
theorem c5_role_grant_failure_aborts (g : Guild) (cfg : Config) (uname : Str)
    (tid userId br : Nat) (actor : Actor) (reason : Str)
    (h0 : userId ≠ 0)
    (ha : authOk cfg actor = true)
    (hm : g.memberExists (userId : Int) = true)
    (hb : cfg.roles.belgian = some br)
    (hr : g.roleExists br = true)
    (hg : g.addRoleFails (userId : Int) br = true) :
    approve g cfg ⟨createChannelName ReqType.citizen tid uname,
        createTopic uname ReqType.citizen tid userId⟩ actor reason =
      ⟨.roleGrantError, noEffects⟩ := by
  simp [approve, isTicketName_createChannelName, extractUserId_createTopic,
    requestTypeOf_createChannelName, typeChars, h0, ha, hm, hb, hr, hg, getRole]

/-- Witness for C5: a guild whose role mutation always fails. -/
theorem c5_role_grant_failure_aborts_witness :
    approve { gdEnv with addRoleFails := fun _ _ => true } cfgAll
        ⟨createChannelName ReqType.citizen 1 (chars "bob"),
          createTopic (chars "bob") ReqType.citizen 1 42⟩ ⟨[3], false⟩ [] =
      ⟨.roleGrantError, noEffects⟩ :=
  c5_role_grant_failure_aborts { gdEnv with addRoleFails := fun _ _ => true } cfgAll
    (chars "bob") 1 42 10 ⟨[3], false⟩ []
    (by decide) (by decide) (by decide) (by decide) (by decide) (by decide)

/-- Claim C8: when no log channel is configured, `approve` and `deny` still
complete the full decision flow — requester notification, moderator
acknowledgment, scheduled deletion — and the acknowledgment carries no
warning field (and no log entry is written anywhere). -/
theorem c8_no_log_still_completes (g : Guild) (cfg : Config) (uname : Str)
    (tid userId : Nat) (rt : ReqType) (actor : Actor) (reason : Str)
    (hl : cfg.log_channel_id = none)
    (h0 : userId ≠ 0)
    (ha : authOk cfg actor = true)
    (hm : g.memberExists (userId : Int) = true)
    (hg : ∀ r, g.addRoleFails (userId : Int) r = false) :
    (∃ eff, approve g cfg ⟨createChannelName rt tid uname,
          createTopic uname rt tid userId⟩ actor reason = ⟨.completed, eff⟩ ∧
        eff.requesterNotified = true ∧ eff.modAckSent = true ∧
        eff.modAckWarning = false ∧ eff.logEntries = [] ∧
        eff.deletionScheduled = true) ∧
      (∃ eff, deny g cfg ⟨createChannelName rt tid uname,
            createTopic uname rt tid userId⟩ actor reason = ⟨.completed, eff⟩ ∧
          eff.requesterNotified = true ∧ eff.modAckSent = true ∧
          eff.modAckWarning = false ∧ eff.logEntries = [] ∧
          eff.deletionScheduled = true) := by
  have hez : chars "embassy" ≠ chars "citizen" := by decide
  have hez' : chars "embassy" ≠ chars "foreigner" := by decide
  have hfz : chars "foreigner" ≠ chars "citizen" := by decide
  constructor
  · cases rt
    case citizen =>
      rcases hgr : getRole g cfg.roles.belgian with _ | r
      · refine ⟨⟨[], true, true, none, [], true, false, true⟩, ?_, rfl, rfl, rfl, rfl, rfl⟩
        simp [approve, isTicketName_createChannelName, extractUserId_createTopic,
          requestTypeOf_createChannelName, typeChars, h0, ha, hm, hg, hgr, hl,
          postLog, truthyId]
      · refine ⟨⟨[r], true, true, some r, [], true, false, true⟩, ?_, rfl, rfl, rfl, rfl, rfl⟩
        simp [approve, isTicketName_createChannelName, extractUserId_createTopic,
          requestTypeOf_createChannelName, typeChars, h0, ha, hm, hg, hgr, hl,
          postLog, truthyId]
    case foreigner =>
      rcases hgr : getRole g cfg.roles.foreigner with _ | r
      · refine ⟨⟨[], true, true, none, [], true, false, true⟩, ?_, rfl, rfl, rfl, rfl, rfl⟩
        simp [approve, isTicketName_createChannelName, extractUserId_createTopic,
          requestTypeOf_createChannelName, typeChars, hfz, h0, ha, hm, hg, hgr, hl,
          postLog, truthyId]
      · refine ⟨⟨[r], true, true, some r, [], true, false, true⟩, ?_, rfl, rfl, rfl, rfl, rfl⟩
        simp [approve, isTicketName_createChannelName, extractUserId_createTopic,
          requestTypeOf_createChannelName, typeChars, hfz, h0, ha, hm, hg, hgr, hl,
          postLog, truthyId]
    case embassy =>
      refine ⟨⟨[], true, true, none, [], true, false, true⟩, ?_, rfl, rfl, rfl, rfl, rfl⟩
      simp [approve, isTicketName_createChannelName, extractUserId_createTopic,
        requestTypeOf_createChannelName, typeChars, hez, hez', h0, ha, hm, hl,
        postLog, truthyId]
  · refine ⟨⟨[], true, true, none, [], true, false, true⟩, ?_, rfl, rfl, rfl, rfl, rfl⟩
    simp [deny, isTicketName_createChannelName, extractUserId_createTopic,
      requestTypeOf_createChannelName, h0, ha, hm, hl, postLog, truthyId]

/-- Witness for C8 at a concrete configuration without a log channel. -/
theorem c8_no_log_still_completes_witness :
    (∃ eff, approve gdEnv cfgNoLog ⟨createChannelName ReqType.citizen 1 (chars "bob"),
          createTopic (chars "bob") ReqType.citizen 1 42⟩ ⟨[3], false⟩ [] =
        ⟨.completed, eff⟩ ∧
        eff.requesterNotified = true ∧ eff.modAckSent = true ∧
        eff.modAckWarning = false ∧ eff.logEntries = [] ∧
        eff.deletionScheduled = true) ∧
      (∃ eff, deny gdEnv cfgNoLog ⟨createChannelName ReqType.citizen 1 (chars "bob"),
            createTopic (chars "bob") ReqType.citizen 1 42⟩ ⟨[3], false⟩ [] =
          ⟨.completed, eff⟩ ∧
          eff.requesterNotified = true ∧ eff.modAckSent = true ∧
          eff.modAckWarning = false ∧ eff.logEntries = [] ∧
          eff.deletionScheduled = true) :=
  c8_no_log_still_completes gdEnv cfgNoLog (chars "bob") 1 42 ReqType.citizen ⟨[3], false⟩ []
    (by decide) (by decide) (by decide) (by decide) (fun _ => rfl)

theorem approve_not_unauthorized (g : Guild) (cfg : Config) (ch : Channel) (actor : Actor)
    (reason : Str) (hA : authOk cfg actor = true) :
    (approve g cfg ch actor reason).outcome ≠ .unauthorized := by
  unfold approve
  by_cases hT : isTicketName ch.name
  · rcases hU : extractUserId ch.topic with _ | uid
    · simp [hT, hA, hU]
    · by_cases h0 : uid = 0
      · simp [hT, hA, hU, h0]
      · by_cases hM : g.memberExists uid
        · simp only [hT, hA, hU, h0, hM, Bool.not_true, Bool.false_eq_true, if_false,
            if_neg h0]
          split <;> solve
            | simp
            | (split <;> solve
                | simp
                | (split <;> simp))
        · simp [hT, hA, hU, h0, hM]
  · simp [hT]

theorem approve_unauthorized_iff (g : Guild) (cfg : Config) (ch : Channel) (actor : Actor)
    (reason : Str) (ht : isTicketName ch.name = true) :
    (approve g cfg ch actor reason).outcome = .unauthorized ↔ authOk cfg actor = false := by
  constructor
  · intro h
    rcases hA : authOk cfg actor
    · rfl
    · exact absurd h (approve_not_unauthorized g cfg ch actor reason hA)
  · intro h
    simp [approve, ht, h]

/-- Counterexample to claim C9: at a concrete fully-populated configuration
the moderator role list consulted by the authorization check is the same
for every pair of request types — no pair differs. -/
theorem c9_same_roles_counterexample :
    modRolesFor cfgAll ReqType.citizen = modRolesFor cfgAll ReqType.embassy ∧
      modRolesFor cfgAll ReqType.citizen = modRolesFor cfgAll ReqType.foreigner ∧
      modRolesFor cfgAll ReqType.foreigner = modRolesFor cfgAll ReqType.embassy := by
  decide

/-- Claim C9 as amended: the set of roles authorized to approve or deny
does NOT differ by request type — for every configuration and every pair of
request types the consulted moderator role list is identical, and `approve`
rejects an actor as unauthorized on a ticket of one type exactly when it
does so on a ticket of any other type. -/
theorem c9_authorization_uniform (g : Guild) (cfg : Config) (actor : Actor) (reason : Str)
    (uname : Str) (tid userId : Nat) (t1 t2 : ReqType) :
    modRolesFor cfg t1 = modRolesFor cfg t2 ∧
      ((approve g cfg ⟨createChannelName t1 tid uname, createTopic uname t1 tid userId⟩
          actor reason).outcome = .unauthorized ↔
        (approve g cfg ⟨createChannelName t2 tid uname, createTopic uname t2 tid userId⟩
          actor reason).outcome = .unauthorized) := by
  refine ⟨rfl, ?_⟩
  rw [approve_unauthorized_iff g cfg _ actor reason (isTicketName_createChannelName t1 tid uname),
    approve_unauthorized_iff g cfg _ actor reason (isTicketName_createChannelName t2 tid uname)]

theorem create_always_persists_increment (g : Guild) (cfg : Config) (uname : Str)
    (userId : Nat) (rt : ReqType) :
    (create_verification_channel g cfg uname userId rt).savedConfig.ticket_counter =
      cfg.ticket_counter + 1 := by
  simp only [create_verification_channel]
  split
  · rfl
  · split <;> rfl

/-- Claim C10: ticket creation is not atomic with the counter — whenever
`create_verification_channel` aborts with a permission error (category
pre-check or forbidden creation), the incremented `ticket_counter` has
already been persisted, even though no channel was created. -/
theorem c10_counter_persisted_on_abort (g : Guild) (cfg : Config) (uname : Str)
    (userId : Nat) (rt : ReqType)
    (h : (create_verification_channel g cfg uname userId rt).outcome ≠
      CreateOutcome.created) :
    (create_verification_channel g cfg uname userId rt).savedConfig.ticket_counter =
        cfg.ticket_counter + 1 ∧
      (create_verification_channel g cfg uname userId rt).channelName = none := by
  refine ⟨create_always_persists_increment g cfg uname userId rt, ?_⟩
  revert h
  simp only [create_verification_channel]
  split
  · intro _
    rfl
  · split
    · intro _
      rfl
    · intro h
      exact absurd rfl h

/-- Witness for C10: the category is configured and resolvable but the bot
may not manage it, so creation aborts — yet the persisted counter advanced. -/
theorem c10_counter_persisted_on_abort_witness :
    (create_verification_channel { gdEnv with botCanManageCategory := false } cfgAll
          (chars "bob") 42 ReqType.citizen).outcome ≠ CreateOutcome.created ∧
      ((create_verification_channel { gdEnv with botCanManageCategory := false } cfgAll
            (chars "bob") 42 ReqType.citizen).savedConfig.ticket_counter =
          cfgAll.ticket_counter + 1 ∧
        (create_verification_channel { gdEnv with botCanManageCategory := false } cfgAll
            (chars "bob") 42 ReqType.citizen).channelName = none) :=
  ⟨by decide,
    c10_counter_persisted_on_abort { gdEnv with botCanManageCategory := false } cfgAll
      (chars "bob") 42 ReqType.citizen (by decide)⟩

/-! ## Config merge lemmas -/

theorem lookupJ_append_single_ne (a : List (String × JVal)) (k k' : String) (v : JVal)
    (hne : k' ≠ k) : lookupJ (a ++ [(k', v)]) k = lookupJ a k := by
  induction a with
  | nil => simp [lookupJ, hne]
  | cons kv rest ih =>
    rcases kv with ⟨k2, v2⟩
    by_cases hk : k2 = k
    · simp [lookupJ, hk]
    · simp only [List.cons_append, lookupJ, if_neg hk]
      exact ih

theorem lookupJ_append_single_eq (a : List (String × JVal)) (k : String) (v : JVal)
    (h : lookupJ a k = none) : lookupJ (a ++ [(k, v)]) k = some v := by
  induction a with
  | nil => simp [lookupJ]
  | cons kv rest ih =>
    rcases kv with ⟨k2, v2⟩
    by_cases hk : k2 = k
    · rw [show lookupJ ((k2, v2) :: rest) k = some v2 by simp [lookupJ, hk]] at h
      exact absurd h (by simp)
    · simp only [List.cons_append, lookupJ, if_neg hk] at h ⊢
      exact ih h

theorem foldl_mergeStep_preserves (ds : List (String × JVal)) (cfg : List (String × JVal))
    (k : String) (h : (lookupJ cfg k).isSome = true) :
    lookupJ (ds.foldl mergeStep cfg) k = lookupJ cfg k := by
  induction ds generalizing cfg with
  | nil => rfl
  | cons kv ds ih =>
    have hstep : lookupJ (mergeStep cfg kv) k = lookupJ cfg k := by
      unfold mergeStep
      split
      · rfl
      · rename_i hnk
        by_cases hke : kv.1 = k
        · exfalso
          apply hnk
          unfold hasKeyJ
          rw [hke]
          exact h
        · exact lookupJ_append_single_ne cfg k kv.1 kv.2 hke
    rw [List.foldl_cons, ih (mergeStep cfg kv) (by rw [hstep]; exact h), hstep]

theorem foldl_mergeStep_fills :
    ∀ (ds : List (String × JVal)) (k : String) (v : JVal) (cfg : List (String × JVal)),
      lookupJ ds k = some v → lookupJ cfg k = none →
      lookupJ (ds.foldl mergeStep cfg) k = some v := by
  intro ds k v
  induction ds with
  | nil =>
    intro cfg hd _
    simp [lookupJ] at hd
  | cons kv ds ih =>
    intro cfg hd habs
    rcases kv with ⟨a, w⟩
    rw [List.foldl_cons]
    by_cases hak : a = k
    · subst hak
      have hv : w = v := by simpa [lookupJ] using hd
      subst hv
      have hnk : hasKeyJ cfg a = false := by
        unfold hasKeyJ
        rw [habs]
        rfl
      have hstep : mergeStep cfg (a, w) = cfg ++ [(a, w)] := by
        unfold mergeStep
        rw [hnk]
        simp
      rw [hstep]
      have hsome : lookupJ (cfg ++ [(a, w)]) a = some w :=
        lookupJ_append_single_eq cfg a w habs
      rw [foldl_mergeStep_preserves ds _ a (by rw [hsome]; rfl)]
      exact hsome
    · have hd' : lookupJ ds k = some v := by
        simpa [lookupJ, hak] using hd
      have habs' : lookupJ (mergeStep cfg (a, w)) k = none := by
        unfold mergeStep
        split
        · exact habs
        · rw [lookupJ_append_single_ne cfg k a w hak]
          exact habs
      exact ih _ hd' habs'

/-- Counterexample to claim C7: a persisted config whose `roles` object is
present but empty.  The default schema has the nested role key `belgian`,
the loaded object lacks it, yet the merged result still lacks it — the
merge is top-level only. -/
theorem c7_nested_roles_not_merged_counterexample :
    rolesHasKey defaultConfigFields "belgian" = true ∧
      rolesHasKey (load_config (some [("roles", JVal.obj [])])) "belgian" = false := by
  constructor
  · rfl
  · rfl

/-- Claim C7 as amended: `load()` merges top-level keys only — every
top-level key of the default schema is present in the result, and a
top-level key absent from the loaded object gets its default value; the
nested role keys under `roles` are not merged individually (a present
`roles` object is kept as-is). -/
theorem c7_top_level_merge (loaded : List (String × JVal)) (k : String) (v : JVal)
    (hk : lookupJ defaultConfigFields k = some v) :
    (lookupJ (load_config (some loaded)) k).isSome = true ∧
      (lookupJ loaded k = none → lookupJ (load_config (some loaded)) k = some v) := by
  constructor
  · unfold load_config mergeDefaults
    rcases hl : lookupJ loaded k with _ | w
    · rw [foldl_mergeStep_fills defaultConfigFields k v loaded hk hl]
      rfl
    · rw [foldl_mergeStep_preserves defaultConfigFields loaded k (by rw [hl]; rfl), hl]
      rfl
  · intro habs
    exact foldl_mergeStep_fills defaultConfigFields k v loaded hk habs

/-- Witness for the amended C7: loading an empty persisted object fills the
default `ticket_counter`. -/
theorem c7_top_level_merge_witness :
    lookupJ defaultConfigFields "ticket_counter" = some (JVal.num 0) ∧
      ((lookupJ (load_config (some [])) "ticket_counter").isSome = true ∧
        (lookupJ ([] : List (String × JVal)) "ticket_counter" = none →
          lookupJ (load_config (some [])) "ticket_counter" = some (JVal.num 0))) :=
  ⟨rfl, c7_top_level_merge [] "ticket_counter" (JVal.num 0) rfl⟩

end Bot
